import Mathlib

/-!
Shallow embedding of the skin resolution and image-derivation pipeline of
`src/main.go` (minotar 1.3).  Remote collaborators (the minecraft skin
store `minecraft.GetSkin`, the identity service `minecraft.GetUser`), the
on-disk cache file system, and the image codec are modelled as an explicit
oracle record; the functions of `main.go` become total Lean functions over
that oracle, recording the remote calls they perform and the cache files
they write.
-/

namespace Minotar

/-- Constants from `main.go` lines 22-38. -/
def DefaultSize : Nat := 180

def MaxSize : Nat := 300

def MinSize : Nat := 8

def Minutes : Nat := 60

def Hours : Nat := 60 * Minutes

def Days : Nat := 24 * Hours

def TimeoutActualSkin : Nat := 2 * Days

def TimeoutFailedFetch : Nat := 15 * Minutes

/-- `MinotarConfig` from `main.go` lines 40-44. -/
structure MinotarConfig where
  diskCache : Bool
  errorLogging : Bool
  accessLogging : Bool
deriving DecidableEq, Repr

/-- A decoded skin bitmap (`minecraft.Skin`); the bitmap itself is opaque
for the properties verified here, so it is a single token.  `image = 0`
with no other information is the Go zero value `minecraft.Skin{}`. -/
structure Skin where
  image : Nat
deriving DecidableEq, Repr

/-- The Go zero value `minecraft.Skin{}`, produced when an ignored-error
`GetSkin` call fails. -/
def emptySkin : Skin := ⟨0⟩

/-- `minecraft.User`; only the `Name` field is used by `main.go`.  The zero
value `minecraft.User{}` has `name = ""`. -/
structure User where
  name : String
deriving DecidableEq, Repr

/-- One remote call performed by the resolver: a skin-store fetch
(`minecraft.GetSkin`) or an identity lookup (`minecraft.GetUser`). -/
inductive RemoteCall where
  | getSkinCall (name : String)
  | getUserCall (name : String)
deriving DecidableEq, Repr

/-- The resolution outcome of the fallback chain: `Resolved` when the
returned bitmap came from a cache hit or a successful remote fetch,
`Fallback` when the default ("char") skin was substituted. -/
inductive Outcome where
  | Resolved
  | Fallback
deriving DecidableEq, Repr

/-- The external world `fetchSkin` interacts with: the disk cache
directory `skins/` (raw file bytes), the image codec, the two remote
services, and the resizer.  `none` models the Go error return. -/
structure Oracle where
  disk : String → Option (List Nat)
  decode : List Nat → Option Skin
  encode : Skin → List Nat
  getSkin : String → Option Skin
  getUser : String → Option User
  resize : Nat → Nat → Nat → Nat

/-- Result of one run of `fetchSkin`: the returned skin, the resolution
outcome, the remote calls performed (in order) and the cache files written
(key, bytes). -/
structure FetchResult where
  skin : Skin
  outcome : Outcome
  remoteCalls : List RemoteCall
  cacheWrites : List (String × List Nat)
deriving DecidableEq, Repr

/-- `saveLocalSkin` from `main.go` lines 196-198: write the skin's bytes
to `skins/<username>.png`; modelled as the (key, bytes) pair recorded in
`FetchResult.cacheWrites`. -/
def saveLocalSkin (orc : Oracle) (username : String) (skin : Skin) :
    String × List Nat :=
  (username, orc.encode skin)

/-- `getLocalSkin` from `main.go` lines 200-212: open `skins/<username>.png`
and decode it; an open failure or a decode failure is an error (`none`). -/
def getLocalSkin (orc : Oracle) (username : String) : Option Skin :=
  match orc.disk username with
  | none => none
  | some bs => orc.decode bs

/-- The remote part of `fetchSkin` (`main.go` lines 222-245): fetch from
the skin store; on failure consult the identity service and either retry
the fetch under the canonical name or substitute the "char" skin (the Go
code ignores the error of that last fetch, yielding `minecraft.Skin{}` if
it too fails); in the error branch, if the disk cache is enabled, persist
the final skin keyed by `user.Name` (the zero value `""` when the identity
lookup failed). -/
def fetchSkinRemote (cfg : MinotarConfig) (orc : Oracle) (username : String) :
    FetchResult :=
  match orc.getSkin username with
  | some skin =>
    { skin := skin, outcome := Outcome.Resolved,
      remoteCalls := [RemoteCall.getSkinCall username], cacheWrites := [] }
  | none =>
    match orc.getUser username with
    | none =>
      let skin := (orc.getSkin "char").getD emptySkin
      { skin := skin, outcome := Outcome.Fallback,
        remoteCalls := [RemoteCall.getSkinCall username,
          RemoteCall.getUserCall username, RemoteCall.getSkinCall "char"],
        cacheWrites :=
          if cfg.diskCache then [saveLocalSkin orc "" skin] else [] }
    | some user =>
      match orc.getSkin user.name with
      | some skin =>
        { skin := skin, outcome := Outcome.Resolved,
          remoteCalls := [RemoteCall.getSkinCall username,
            RemoteCall.getUserCall username, RemoteCall.getSkinCall user.name],
          cacheWrites :=
            if cfg.diskCache then [saveLocalSkin orc user.name skin] else [] }
      | none =>
        let skin := (orc.getSkin "char").getD emptySkin
        { skin := skin, outcome := Outcome.Fallback,
          remoteCalls := [RemoteCall.getSkinCall username,
            RemoteCall.getUserCall username, RemoteCall.getSkinCall user.name,
            RemoteCall.getSkinCall "char"],
          cacheWrites :=
            if cfg.diskCache then [saveLocalSkin orc user.name skin] else [] }

/-- `fetchSkin` from `main.go` lines 214-246: if the disk cache is enabled
and `getLocalSkin` succeeds, return the cached skin immediately; otherwise
run the remote fallback chain. -/
def fetchSkin (cfg : MinotarConfig) (orc : Oracle) (username : String) :
    FetchResult :=
  if cfg.diskCache then
    match getLocalSkin orc username with
    | some skin =>
      { skin := skin, outcome := Outcome.Resolved,
        remoteCalls := [], cacheWrites := [] }
    | none => fetchSkinRemote cfg orc username
  else
    fetchSkinRemote cfg orc username

/-- The default skin this code serves when no real skin resolves: the skin
of user "char" as the skin store returns it, or the zero value if even
that fetch fails (`main.go` lines 230, 236 ignore the error). -/
def defaultSkin (orc : Oracle) : Skin :=
  (orc.getSkin "char").getD emptySkin

/-- Apply the cache writes of a resolution to the oracle's disk: each
written file replaces the cache entry under its key (whole-file
replacement). -/
def applyWrites (orc : Oracle) (ws : List (String × List Nat)) : Oracle :=
  { orc with
    disk := fun n =>
      match ws.find? (fun w => w.1 == n) with
      | some w => some w.2
      | none => orc.disk n }

/-- Go standard library `strconv.ParseUint(inp, 10, 0)` semantics, as used
by `rationalizeSize`: with base 10 and bitSize 0 the string must be a
non-empty run of decimal digits whose value fits in `uint` (64-bit);
anything else — empty string, non-digit characters, out-of-range value —
is an error (`none`). -/
def parseUintDec (s : String) : Option Nat :=
  if s.isEmpty then none
  else if s.data.all (fun c => c.isDigit) then
    let v := s.data.foldl (fun acc c => acc * 10 + (c.toNat - 48)) 0
    if v < 2 ^ 64 then some v else none
  else none

/-- `rationalizeSize` from `main.go` lines 109-120: parse the size string;
on a parse error return `DefaultSize`, clamp values above `MaxSize` and
below `MinSize` to the bounds, otherwise return the parsed value. -/
def rationalizeSize (inp : String) : Nat :=
  match parseUintDec inp with
  | none => DefaultSize
  | some out =>
    if out > MaxSize then MaxSize
    else if out < MinSize then MinSize
    else out

/-- `timeBetween` from `main.go` lines 126-133: swap the timestamps when
out of order, then divide the (now non-negative) nanosecond difference by
1000000.  Timestamps are nanosecond counts as `Int`. -/
def timeBetween (timeA timeB : Int) : Int :=
  if timeB < timeA then (timeA - timeB) / 1000000
  else (timeB - timeA) / 1000000

/-- The observable response a handler produces: the HTTP status and the
headers/body set by `fetchImageProcessThen`.  `xTiming` is the four
numbers of the `X-Timing` value `fetchMs+processMs+resizeMs=totalMs`. -/
structure Response where
  status : Nat
  contentType : Option String
  xRequested : Option String
  xResult : Option String
  cacheControl : Option Nat
  xTiming : Option (Int × Int × Int × Int)
  body : Option Nat
deriving DecidableEq, Repr

/-- `serverErrorPage` from `main.go` lines 104-107: a bare 500 response. -/
def serverErrorPage : Response :=
  { status := 500, contentType := none, xRequested := none, xResult := none,
    cacheControl := none, xTiming := none, body := none }

/-- `addCacheTimeoutHeader` from `main.go` lines 122-124: attach the
`Cache-Control: max-age=<timeout>` header. -/
def addCacheTimeoutHeader (r : Response) (timeout : Nat) : Response :=
  { r with cacheControl := some timeout }

/-- The inputs of one invocation of the handler returned by
`fetchImageProcessThen`: the route variables `username` and `size`, and
the four `time.Now()` readings (nanoseconds) taken at request start,
post-fetch, post-process and post-resize. -/
structure PipeInput where
  username : String
  size : String
  t0 : Int
  t1 : Int
  t2 : Int
  t3 : Int

/-- `fetchImageProcessThen` from `main.go` lines 135-176: rationalize the
size, resolve the skin, run the view-derivation callback (server error on
failure), resize, and emit the headers.  `ok` is initialized `true` and —
as in the source — never reassigned, so the `else` branch writing
`X-Result: failed` with `TimeoutFailedFetch` is dead code. -/
def fetchImageProcessThen (callback : Skin → Except Unit Nat)
    (cfg : MinotarConfig) (orc : Oracle) (inp : PipeInput) : Response :=
  let size := rationalizeSize inp.size
  let ok := true
  let fr := fetchSkin cfg orc inp.username
  match callback fr.skin with
  | Except.error _ => serverErrorPage
  | Except.ok img =>
    let imgResized := orc.resize size size img
    let timeout := if ok then TimeoutActualSkin else TimeoutFailedFetch
    addCacheTimeoutHeader
      { status := 200
        contentType := some "image/png"
        xRequested := some "processed"
        xResult := some (if ok then "ok" else "failed")
        cacheControl := none
        xTiming := some (timeBetween inp.t0 inp.t1, timeBetween inp.t1 inp.t2,
          timeBetween inp.t2 inp.t3, timeBetween inp.t0 inp.t3)
        body := some imgResized }
      timeout

/-! Concrete configurations, codecs and oracles used to evaluate the
definitions on closed inputs. -/

/-- Configuration with the disk cache enabled. -/
def cfgOn : MinotarConfig := ⟨true, false, false⟩

/-- Configuration with the disk cache disabled. -/
def cfgOff : MinotarConfig := ⟨false, false, false⟩

/-- A concrete lossless codec: a skin's bytes are its single token. -/
def codecEncode (s : Skin) : List Nat := [s.image]

/-- Decoder matching `codecEncode`; any other byte shape fails to
decode. -/
def codecDecode : List Nat → Option Skin
  | [n] => some ⟨n⟩
  | _ => none

/-- An oracle where every collaborator fails: empty disk, no skin-store
records, no identity records. -/
def emptyOracle : Oracle :=
  { disk := fun _ => none
    decode := codecDecode
    encode := codecEncode
    getSkin := fun _ => none
    getUser := fun _ => none
    resize := fun _ _ img => img }

/-- Oracle where the skin store has a record for "alice" and nothing
else exists. -/
def orcDirectHit : Oracle :=
  { emptyOracle with getSkin := fun n => if n = "alice" then some ⟨7⟩ else none }

/-- Oracle where only the default "char" skin exists in the skin store. -/
def orcCharOnly : Oracle :=
  { emptyOracle with getSkin := fun n => if n = "char" then some ⟨1⟩ else none }

/-- Oracle where the disk cache holds a decodable entry for "alice". -/
def orcDiskHit : Oracle :=
  { emptyOracle with disk := fun n => if n = "alice" then some [7] else none }

/-- Oracle where the disk cache holds an entry for "bob" whose bytes fail
to decode. -/
def orcBadEntry : Oracle :=
  { emptyOracle with disk := fun n => if n = "bob" then some [] else none }

/-- Oracle where the skin store misses "alice" but the identity service
resolves "alice" to canonical "Alice", whose skin exists. -/
def orcIdentity : Oracle :=
  { emptyOracle with
    getSkin := fun n => if n = "Alice" then some ⟨7⟩ else none
    getUser := fun n => if n = "alice" then some ⟨"Alice"⟩ else none }

/-- A view-derivation callback that always succeeds. -/
def cbOk : Skin → Except Unit Nat := fun _ => Except.ok 0

/-- A view-derivation callback that always fails. -/
def cbErr : Skin → Except Unit Nat := fun _ => Except.error ()

/-- Pipeline input for an unknown player, no size, all timestamps zero. -/
def inpGhost : PipeInput := ⟨"ghost", "", 0, 0, 0, 0⟩

/-- Pipeline input whose four timestamps are 0.5 ms apart. -/
def inpHalfMs : PipeInput := ⟨"ghost", "", 0, 500000, 1000000, 1500000⟩

/-! Theorems settling the claims. -/

/-- Claim C4: if the disk cache is enabled and holds an entry for the
identifier whose bytes decode, `fetchSkin` returns that cached skin as
`Resolved` immediately: zero remote calls (neither a skin-store fetch nor
an identity lookup) and zero cache writes. -/
theorem cache_hit_resolved_no_remote_calls
    (cfg : MinotarConfig) (orc : Oracle) (id : String) (bs : List Nat)
    (s : Skin) (hc : cfg.diskCache = true) (hdisk : orc.disk id = some bs)
    (hdec : orc.decode bs = some s) :
    fetchSkin cfg orc id =
      { skin := s, outcome := Outcome.Resolved,
        remoteCalls := [], cacheWrites := [] } := by
  simp [fetchSkin, hc, getLocalSkin, hdisk, hdec]

/-- Claim C4 witness: a disk-cache hit for "alice" resolves with zero
remote calls. -/
theorem cache_hit_resolved_no_remote_calls_witness :
    fetchSkin cfgOn orcDiskHit "alice" =
      { skin := ⟨7⟩, outcome := Outcome.Resolved,
        remoteCalls := [], cacheWrites := [] } :=
  cache_hit_resolved_no_remote_calls cfgOn orcDiskHit "alice" [7] ⟨7⟩
    (by decide) (by decide) (by decide)

/-- Claim C7: if the disk cache is enabled and holds an entry for the
identifier whose bytes fail to decode, `fetchSkin` treats the failed
decode as a cache miss: the result is exactly that of the remote fallback
chain, and the step-2 skin-store fetch for the identifier is performed. -/
theorem undecodable_cache_entry_falls_through
    (cfg : MinotarConfig) (orc : Oracle) (id : String) (bs : List Nat)
    (hc : cfg.diskCache = true) (hdisk : orc.disk id = some bs)
    (hdec : orc.decode bs = none) :
    fetchSkin cfg orc id = fetchSkinRemote cfg orc id ∧
    RemoteCall.getSkinCall id ∈ (fetchSkin cfg orc id).remoteCalls := by
  have h1 : fetchSkin cfg orc id = fetchSkinRemote cfg orc id := by
    simp [fetchSkin, hc, getLocalSkin, hdisk, hdec]
  refine ⟨h1, ?_⟩
  rw [h1]
  unfold fetchSkinRemote
  cases horc : orc.getSkin id with
  | some sk => simp
  | none =>
    cases hu : orc.getUser id with
    | none => simp
    | some u => cases h2 : orc.getSkin u.name <;> simp [h2]

/-- Claim C7 witness: an undecodable cache entry for "bob" falls through
to the remote chain. -/
theorem undecodable_cache_entry_falls_through_witness :
    fetchSkin cfgOn orcBadEntry "bob" = fetchSkinRemote cfgOn orcBadEntry "bob" ∧
    RemoteCall.getSkinCall "bob" ∈ (fetchSkin cfgOn orcBadEntry "bob").remoteCalls :=
  undecodable_cache_entry_falls_through cfgOn orcBadEntry "bob" []
    (by decide) (by decide) (by decide)

/-- Claim C5: for every configuration, oracle (i.e. every combination of
remote-collaborator and cache behaviors) and identifier, `fetchSkin`
returns a skin whose outcome is `Resolved` or `Fallback` — its type has
no error channel, so no remote or cache error ever reaches the request
pipeline — and in the worst case (cache miss, skin store miss, identity
miss) it returns the deterministic default skin with outcome
`Fallback`. -/
theorem resolver_absorbs_all_failures
    (cfg : MinotarConfig) (orc : Oracle) (id : String) :
    ((fetchSkin cfg orc id).outcome = Outcome.Resolved ∨
      (fetchSkin cfg orc id).outcome = Outcome.Fallback) ∧
    (orc.disk id = none → orc.getSkin id = none → orc.getUser id = none →
      (fetchSkin cfg orc id).skin = defaultSkin orc ∧
      (fetchSkin cfg orc id).outcome = Outcome.Fallback) := by
  constructor
  · cases (fetchSkin cfg orc id).outcome <;> simp
  · intro hd hs hu
    have h1 : fetchSkin cfg orc id = fetchSkinRemote cfg orc id := by
      unfold fetchSkin
      cases hcfg : cfg.diskCache <;> simp [getLocalSkin, hd]
    rw [h1]
    unfold fetchSkinRemote
    simp [hs, hu, defaultSkin]

/-- Claim C5 witness: with every collaborator failing, the resolver still
returns the default skin as `Fallback`. -/
theorem resolver_absorbs_all_failures_witness :
    (fetchSkin cfgOff emptyOracle "ghost").skin = defaultSkin emptyOracle ∧
    (fetchSkin cfgOff emptyOracle "ghost").outcome = Outcome.Fallback :=
  (resolver_absorbs_all_failures cfgOff emptyOracle "ghost").2 rfl rfl rfl

/-- Claim C6: `rationalizeSize` returns `DefaultSize` (180) when the size
string does not parse as an unsigned integer (including empty/absent),
`MaxSize` (300) when the parsed value exceeds 300, `MinSize` (8) when it
is below 8, the parsed value otherwise; the result always lies in
`[MinSize, MaxSize]` and the function is total (never an error). -/
theorem rationalizeSize_spec (s : String) :
    (parseUintDec s = none → rationalizeSize s = DefaultSize) ∧
    (∀ v, parseUintDec s = some v →
      rationalizeSize s =
        if v > MaxSize then MaxSize else if v < MinSize then MinSize else v) ∧
    MinSize ≤ rationalizeSize s ∧ rationalizeSize s ≤ MaxSize := by
  unfold rationalizeSize
  cases h : parseUintDec s with
  | none => simp [DefaultSize, MinSize, MaxSize]
  | some v =>
    refine ⟨by simp, fun w hw => by rw [Option.some_inj] at hw; rw [hw], ?_, ?_⟩ <;>
      simp only [MinSize, MaxSize] <;> split_ifs <;> omega

/-- Claim C6 witness: concrete evaluations of the four regimes — an
unparsable string, an oversized value, an undersized value, and an
in-range value. -/
theorem rationalizeSize_spec_witness :
    rationalizeSize "abc" = DefaultSize ∧ rationalizeSize "999" = MaxSize := by
  constructor
  · exact (rationalizeSize_spec "abc").1 (by decide)
  · exact ((rationalizeSize_spec "999").2.1 999 (by decide)).trans (by decide)

/-- Claim C3 counterexample: for identifier "bob" with no cache entry, no
skin-store record and no identity record, with the disk cache enabled,
the resolution does perform a cache write (of the fallback skin, keyed by
the empty string) — refuting "no cache write occurs, regardless of
whether the disk cache is enabled". -/
theorem fallback_writes_cache_when_enabled :
    (fetchSkin cfgOn orcCharOnly "bob").outcome = Outcome.Fallback ∧
    (fetchSkin cfgOn orcCharOnly "bob").cacheWrites = [("", [1])] ∧
    (fetchSkin cfgOn orcCharOnly "bob").cacheWrites ≠ [] := by
  decide

/-- Claim C3 amended: for an identifier with no disk-cache entry, no
skin-store record and no identity record, resolution returns the default
skin with outcome `Fallback`; no cache write occurs when the disk cache
is disabled, but when it is enabled a single write of the default skin,
keyed by the empty string (the zero-value `user.Name`), occurs. -/
theorem unknown_identifier_fallback_behavior
    (cfg : MinotarConfig) (orc : Oracle) (id : String)
    (hd : orc.disk id = none) (hs : orc.getSkin id = none)
    (hu : orc.getUser id = none) :
    (fetchSkin cfg orc id).skin = defaultSkin orc ∧
    (fetchSkin cfg orc id).outcome = Outcome.Fallback ∧
    (fetchSkin cfg orc id).cacheWrites =
      (if cfg.diskCache then [("", orc.encode (defaultSkin orc))] else []) := by
  have h1 : fetchSkin cfg orc id = fetchSkinRemote cfg orc id := by
    unfold fetchSkin
    cases hcfg : cfg.diskCache <;> simp [getLocalSkin, hd]
  rw [h1]
  unfold fetchSkinRemote
  simp [hs, hu, defaultSkin, saveLocalSkin]

/-- Claim C3 amended witness: the unknown identifier "bob" under an
enabled disk cache yields the fallback skin and one cache write keyed by
the empty string. -/
theorem unknown_identifier_fallback_behavior_witness :
    (fetchSkin cfgOn orcCharOnly "dave").skin = defaultSkin orcCharOnly ∧
    (fetchSkin cfgOn orcCharOnly "dave").outcome = Outcome.Fallback ∧
    (fetchSkin cfgOn orcCharOnly "dave").cacheWrites =
      (if cfgOn.diskCache
        then [("", orcCharOnly.encode (defaultSkin orcCharOnly))] else []) :=
  unknown_identifier_fallback_behavior cfgOn orcCharOnly "dave"
    (by decide) (by decide) (by decide)

/-- Claim C2 counterexample: identifier "alice" resolves `Resolved` via
the direct step-2 remote fetch with the disk cache enabled and no prior
cache entry, yet no cache write occurs — refuting "the resolved skin
bytes are persisted" for step-2 resolutions. -/
theorem direct_fetch_success_writes_no_cache :
    (fetchSkin cfgOn orcDirectHit "alice").outcome = Outcome.Resolved ∧
    (fetchSkin cfgOn orcDirectHit "alice").remoteCalls ≠ [] ∧
    (fetchSkin cfgOn orcDirectHit "alice").cacheWrites = [] := by
  decide

/-- Claim C2 amended: only resolutions that go through the identity
branch persist to the disk cache.  If the step-2 fetch misses, the
identity service resolves the identifier to `u`, the fetch under `u.name`
succeeds, and the disk cache is enabled, then the skin is persisted keyed
by the canonical name `u.name`; provided the persisted bytes decode back,
a subsequent resolution of that canonical name is a disk-cache hit with
zero remote calls. -/
theorem identity_path_persists_and_canonical_rehit
    (cfg : MinotarConfig) (orc : Oracle) (id : String) (u : User) (s : Skin)
    (hc : cfg.diskCache = true) (hd : getLocalSkin orc id = none)
    (hs1 : orc.getSkin id = none) (hu : orc.getUser id = some u)
    (hs2 : orc.getSkin u.name = some s)
    (hrt : orc.decode (orc.encode s) = some s) :
    (fetchSkin cfg orc id).outcome = Outcome.Resolved ∧
    (fetchSkin cfg orc id).skin = s ∧
    (fetchSkin cfg orc id).cacheWrites = [(u.name, orc.encode s)] ∧
    fetchSkin cfg (applyWrites orc (fetchSkin cfg orc id).cacheWrites) u.name =
      { skin := s, outcome := Outcome.Resolved,
        remoteCalls := [], cacheWrites := [] } := by
  have h1 : fetchSkin cfg orc id = fetchSkinRemote cfg orc id := by
    simp [fetchSkin, hc, hd]
  have h2 : fetchSkinRemote cfg orc id =
      { skin := s, outcome := Outcome.Resolved,
        remoteCalls := [RemoteCall.getSkinCall id, RemoteCall.getUserCall id,
          RemoteCall.getSkinCall u.name],
        cacheWrites := [(u.name, orc.encode s)] } := by
    unfold fetchSkinRemote
    simp [hs1, hu, hs2, hc, saveLocalSkin]
  rw [h1, h2]
  refine ⟨rfl, rfl, rfl, ?_⟩
  have hdisk : (applyWrites orc [(u.name, orc.encode s)]).disk u.name =
      some (orc.encode s) := by
    simp [applyWrites]
  have hdec : (applyWrites orc [(u.name, orc.encode s)]).decode (orc.encode s) =
      some s := hrt
  simp [fetchSkin, hc, getLocalSkin, hdisk, hdec]

/-- Claim C2 amended witness: "alice" resolves through the identity
branch to canonical "Alice"; the skin is persisted under "Alice" and a
subsequent resolution of "Alice" is a cache hit with zero remote
calls. -/
theorem identity_path_persists_and_canonical_rehit_witness :
    (fetchSkin cfgOn orcIdentity "alice").outcome = Outcome.Resolved ∧
    (fetchSkin cfgOn orcIdentity "alice").skin = ⟨7⟩ ∧
    (fetchSkin cfgOn orcIdentity "alice").cacheWrites =
      [("Alice", orcIdentity.encode ⟨7⟩)] ∧
    fetchSkin cfgOn
        (applyWrites orcIdentity (fetchSkin cfgOn orcIdentity "alice").cacheWrites)
        "Alice" =
      { skin := ⟨7⟩, outcome := Outcome.Resolved,
        remoteCalls := [], cacheWrites := [] } :=
  identity_path_persists_and_canonical_rehit cfgOn orcIdentity "alice"
    ⟨"Alice"⟩ ⟨7⟩ (by decide) (by decide) (by decide) (by decide) (by decide)
    (by decide)

/-- Claim C1: the handler's `ok` flag is initialized `true` and never
reassigned, so even for a request whose resolution outcome is `Fallback`
(here: unknown identifier "ghost", every collaborator failing) the
response carries `X-Result: ok` and the long `TimeoutActualSkin` cache
lifetime — the `failed`/`TimeoutFailedFetch` branch is dead code. -/
theorem pipeline_reports_ok_on_fallback :
    (fetchSkin cfgOff emptyOracle "ghost").outcome = Outcome.Fallback ∧
    (fetchImageProcessThen cbOk cfgOff emptyOracle inpGhost).xResult =
      some "ok" ∧
    (fetchImageProcessThen cbOk cfgOff emptyOracle inpGhost).cacheControl =
      some TimeoutActualSkin := by
  decide

/-- Claim C8 counterexample: with the four timestamps 0.5 ms apart, the
`X-Timing` components are `0+0+0` while the reported total is `1` — the
breakdown is not additive for all timestamp values. -/
theorem timing_breakdown_not_exactly_additive :
    (fetchImageProcessThen cbOk cfgOff emptyOracle inpHalfMs).xTiming =
      some (0, 0, 0, 1) ∧
    (0 : Int) + 0 + 0 ≠ 1 := by
  decide

/-- Claim C8 amended: for in-order timestamps the breakdown is additive
up to millisecond truncation: the three reported components sum to at
most the reported total, and the total exceeds their sum by at most 2. -/
theorem timing_breakdown_additive_up_to_truncation
    (t0 t1 t2 t3 : Int) (h0 : t0 ≤ t1) (h1 : t1 ≤ t2) (h2 : t2 ≤ t3) :
    timeBetween t0 t1 + timeBetween t1 t2 + timeBetween t2 t3 ≤
      timeBetween t0 t3 ∧
    timeBetween t0 t3 ≤
      timeBetween t0 t1 + timeBetween t1 t2 + timeBetween t2 t3 + 2 := by
  simp only [timeBetween]
  split_ifs <;> omega

/-- Claim C8 amended witness: the truncation bound at the 0.5 ms-apart
timestamps of the counterexample. -/
theorem timing_breakdown_additive_up_to_truncation_witness :
    timeBetween 0 500000 + timeBetween 500000 1000000 +
        timeBetween 1000000 1500000 ≤ timeBetween 0 1500000 ∧
    timeBetween 0 1500000 ≤
      timeBetween 0 500000 + timeBetween 500000 1000000 +
        timeBetween 1000000 1500000 + 2 :=
  timing_breakdown_additive_up_to_truncation 0 500000 1000000 1500000
    (by decide) (by decide) (by decide)

/-- Claim C9: if the view-derivation callback returns an error on the
resolved skin, the handler responds with the server-error page; for every
non-error callback result the handler responds 200 — the callback error
is the only local failure the pipeline produces after resolution. -/
theorem callback_error_propagates_as_server_error
    (cb : Skin → Except Unit Nat) (cfg : MinotarConfig) (orc : Oracle)
    (inp : PipeInput) :
    (cb (fetchSkin cfg orc inp.username).skin = Except.error () →
      fetchImageProcessThen cb cfg orc inp = serverErrorPage) ∧
    (∀ img, cb (fetchSkin cfg orc inp.username).skin = Except.ok img →
      (fetchImageProcessThen cb cfg orc inp).status = 200) := by
  constructor
  · intro h
    simp [fetchImageProcessThen, h]
  · intro img h
    simp [fetchImageProcessThen, h, addCacheTimeoutHeader]

/-- Claim C9 witness: a failing callback on the "ghost" request yields
exactly the server-error page. -/
theorem callback_error_propagates_as_server_error_witness :
    fetchImageProcessThen cbErr cfgOff emptyOracle inpGhost =
      serverErrorPage :=
  (callback_error_propagates_as_server_error cbErr cfgOff emptyOracle
    inpGhost).1 rfl

/-- Claim C10: `timeBetween` is order-insensitive and non-negative:
swapping the two timestamps leaves the result unchanged, and the result
is always at least 0. -/
theorem timeBetween_symm_nonneg (a b : Int) :
    timeBetween a b = timeBetween b a ∧ 0 ≤ timeBetween a b := by
  constructor <;> (simp only [timeBetween]; split_ifs <;> omega)

end Minotar
